import Mathlib

/-!
Verification of the asynchronous device-property management client
(the `NetworkDeviceHandler` core of chromeos/network).

The repository ships only the unit test
`src/chromeos/network/network_device_handler_unittest.cc`; the
implementation (`NetworkDeviceHandlerImpl`, the fake bus client) is not
under `src/`, so the core below is modelled from the spec, faithful to
its words, and the tests pin the observable constants (device paths,
property names, the uniform error name `kErrorFailure`).
-/

namespace DeviceHandler

/-- Typed property value: boolean, string, integer, or ordered sequence of
strings, mirroring the heterogeneous property schema of real devices. -/
inductive Value where
  | bool (b : Bool)
  | str (s : String)
  | int (n : Int)
  | strList (l : List String)
deriving DecidableEq

/-- Two values have the same type when they use the same constructor;
`PropertyStore.Set` demands type compatibility with any existing value. -/
def Value.sameType : Value → Value → Bool
  | .bool _, .bool _ => true
  | .str _, .str _ => true
  | .int _, .int _ => true
  | .strList _, .strList _ => true
  | _, _ => false

/-- First-match lookup in an association list of properties. -/
def lookupProp : List (String × Value) → String → Option Value
  | [], _ => none
  | (p, v) :: rest, name => if p = name then some v else lookupProp rest name

/-- Remove every binding of a property name. -/
def removeProp : List (String × Value) → String → List (String × Value)
  | [], _ => []
  | (p, v) :: rest, name =>
    if p = name then removeProp rest name else (p, v) :: removeProp rest name

/-- Modelled from the spec: `PropertyStore`, the per-device mapping from
property name to typed value (the backing store of the implementation is
not under src/). A name maps to at most one value; last write wins. -/
structure PropertyStore where
  entries : List (String × Value)
deriving DecidableEq

/-- `Get(name) -> value | not found`. -/
def PropertyStore.get (ps : PropertyStore) (name : String) : Option Value :=
  lookupProp ps.entries name

/-- `GetAll() -> mapping of all current properties`: a snapshot copy of the
store contents (value semantics model the DeepCopy taken in the code). -/
def PropertyStore.getAll (ps : PropertyStore) : List (String × Value) :=
  ps.entries

/-- `Set(name, value) -> success | TypeMismatch`: fails if an existing value
for `name` has an incompatible type; otherwise replaces or inserts. -/
def PropertyStore.set (ps : PropertyStore) (name : String) (v : Value) :
    Option PropertyStore :=
  match lookupProp ps.entries name with
  | some old =>
    if old.sameType v then some ⟨(name, v) :: removeProp ps.entries name⟩
    else none
  | none => some ⟨(name, v) :: ps.entries⟩

/-- Device type enumeration (the tests exercise cellular and wifi). -/
inductive DeviceType where
  | cellular
  | wifi
deriving DecidableEq

/-- shill type constant strings (shill::kTypeCellular, shill::kTypeWifi). -/
def typeString : DeviceType → String
  | .cellular => "cellular"
  | .wifi => "wifi"

/-- Modelled from the spec: a `Device` record, `\x7b path (key held by the
registry), type, properties \x7d`. -/
structure Device where
  devType : DeviceType
  properties : PropertyStore
deriving DecidableEq

/-- First-match lookup of a device by path. -/
def lookupDev : List (String × Device) → String → Option Device
  | [], _ => none
  | (p, d) :: rest, path => if p = path then some d else lookupDev rest path

/-- Remove every registration of a device path. -/
def removeDev : List (String × Device) → String → List (String × Device)
  | [], _ => []
  | (p, d) :: rest, path =>
    if p = path then removeDev rest path else (p, d) :: removeDev rest path

/-- Replace the device registered under `path` (identity if absent). -/
def updateDev : List (String × Device) → String → Device → List (String × Device)
  | [], _, _ => []
  | (p, d) :: rest, path, dev =>
    if p = path then (path, dev) :: updateDev rest path dev
    else (p, d) :: updateDev rest path dev

/-- Modelled from the spec: the `DeviceRegistry`, mapping device path to a
Device record; source of truth for device existence. -/
structure DeviceRegistry where
  devices : List (String × Device)
deriving DecidableEq

/-- `Lookup(path) -> Device | not found`: pure lookup, no side effects. -/
def DeviceRegistry.lookup (reg : DeviceRegistry) (path : String) : Option Device :=
  lookupDev reg.devices path

/-- Shill property name constants used by the tests. -/
def kTypeProperty : String := "Type"

def kNameProperty : String := "Name"

def kIPConfigsProperty : String := "IPConfigs"

def kCellularAllowRoamingProperty : String := "Cellular.AllowRoaming"

/-- Modelled from the spec: the test interface `AddDevice(path, type, name)`
(the fake bus client is not under src/). Registers the device upsert-style
and seeds its property store with the `Type` and `Name` properties, which is
how `GetDeviceProperties` can report `Type` without an explicit set. -/
def DeviceRegistry.addDevice (reg : DeviceRegistry) (path : String)
    (t : DeviceType) (name : String) : DeviceRegistry :=
  ⟨(path, ⟨t, ⟨[(kTypeProperty, Value.str (typeString t)),
                (kNameProperty, Value.str name)]⟩⟩) ::
    removeDev reg.devices path⟩

/-- `Remove(path)`: drop the registration, used by the bus-event collaborator. -/
def DeviceRegistry.remove (reg : DeviceRegistry) (path : String) : DeviceRegistry :=
  ⟨removeDev reg.devices path⟩

/-- Modelled from the spec: the test interface `SetDeviceProperty` of the
fake bus client, which assigns a device property directly in the stub store
(bypassing the facade, no continuation involved). -/
def testSetDeviceProperty (reg : DeviceRegistry) (path name : String)
    (v : Value) : DeviceRegistry :=
  match lookupDev reg.devices path with
  | none => reg
  | some dev =>
    ⟨updateDev reg.devices path
      { dev with properties := ⟨(name, v) :: removeProp dev.properties.entries name⟩ }⟩

/-- Error taxonomy of the spec. -/
inductive ErrorKind where
  | deviceNotFound
  | busFailure
  | timeout
  | typeMismatch
deriving DecidableEq

/-- `NetworkDeviceHandler::kErrorFailure`: the single error name the tests
observe for every failing operation (exact literal modelled; the declaring
header is not under src/). -/
def kErrorFailure : String := "Error.Failure"

/-- The eight facade operations with their operation-specific arguments. -/
inductive Op where
  | getDeviceProperties
  | setDeviceProperty (name : String) (v : Value)
  | requestRefreshIPConfigs
  | setCarrier (carrier : String)
  | requirePin (required : Bool) (pin : String)
  | enterPin (pin : String)
  | unblockPin (pin puk : String)
  | changePin (oldPin newPin : String)
deriving DecidableEq

/-- Payload delivered to a success continuation: `GetDeviceProperties`
delivers `(devicePath, propertiesSnapshot)`; every other operation delivers
a bare signal. -/
inductive Payload where
  | signal
  | properties (devicePath : String) (snapshot : List (String × Value))
deriving DecidableEq

/-- Observable events of one facade call: an outbound bus request, or the
invocation of one of the two caller continuations. -/
inductive Event where
  | busRequest (devicePath : String) (op : Op)
  | onSuccess (p : Payload)
  | onError (kind : ErrorKind) (name : String) (detail : String)
deriving DecidableEq

/-- A queued continuation: scheduled during the call, delivered only when
the event loop drains. -/
inductive Cont where
  | success (p : Payload)
  | error (kind : ErrorKind) (name : String) (detail : String)
deriving DecidableEq

/-- Delivering a queued continuation produces the continuation event. -/
def Cont.fire : Cont → Event
  | .success p => .onSuccess p
  | .error k n d => .onError k n d

def Event.isContinuation : Event → Bool
  | .busRequest _ _ => false
  | .onSuccess _ => true
  | .onError _ _ _ => true

def Event.isBusRequest : Event → Bool
  | .busRequest _ _ => true
  | .onSuccess _ => false
  | .onError _ _ _ => false

/-- The continuation invocations among a list of events. -/
def continuations (evs : List Event) : List Event :=
  evs.filter Event.isContinuation

/-- The bus requests among a list of events. -/
def busRequests (evs : List Event) : List Event :=
  evs.filter Event.isBusRequest

/-- The error names delivered to the error continuation. -/
def errorNames (evs : List Event) : List String :=
  evs.filterMap fun e =>
    match e with
    | .onError _ n _ => some n
    | _ => none

/-- Modelled from the spec: the bus collaborator processing one request
against a registered device (the fake bus client is not under src/).
`GetProperties` replies with the snapshot, `SetProperty` applies the typed
set (type mismatch is a failure), the remaining methods acknowledge. -/
def busProcess (path : String) (dev : Device) : Op → Device × Cont
  | .getDeviceProperties =>
    (dev, .success (.properties path dev.properties.getAll))
  | .setDeviceProperty name v =>
    match dev.properties.set name v with
    | some ps => ({ dev with properties := ps }, .success .signal)
    | none => (dev, .error .typeMismatch kErrorFailure "type mismatch setting property")
  | _ => (dev, .success .signal)

/-- Modelled from the spec: one facade call (`DeviceOperationFacade`,
`NetworkDeviceHandlerImpl` is not under src/). It resolves the path via the
registry; if absent it queues `onError(DeviceNotFound)` without contacting
the bus, otherwise it records the outbound bus request and queues the bus
reply continuation. Returns the new registry, the events visible before the
call returns, and the queued continuations. -/
def call (reg : DeviceRegistry) (path : String) (op : Op) :
    DeviceRegistry × List Event × List Cont :=
  match lookupDev reg.devices path with
  | none =>
    (reg, [],
     [Cont.error .deviceNotFound kErrorFailure ("Device not found: " ++ path)])
  | some dev =>
    let r := busProcess path dev op
    (⟨updateDev reg.devices path r.1⟩, [Event.busRequest path op], [r.2])

/-- Draining the event loop delivers every queued continuation. -/
def drainLoop (q : List Cont) : List Event :=
  q.map Cont.fire

/-- One facade call followed by `RunUntilIdle`: the events observed are those
of the call itself followed by the drained continuations. -/
def runOp (reg : DeviceRegistry) (path : String) (op : Op) :
    DeviceRegistry × List Event :=
  let r := call reg path op
  (r.1, r.2.1 ++ drainLoop r.2.2)

/-! Test fixture constants and the registry built by the test SetUp. -/

def kDefaultCellularDevicePath : String := "stub_cellular_device"

def kUnknownCellularDevicePath : String := "unknown_cellular_device"

def kDefaultWifiDevicePath : String := "stub_wifi_device"

/-- The registry the test SetUp builds: a cellular and a wifi device, the
`IPConfigs` property of the wifi device set to `["ip_config1"]`. -/
def testRegistry : DeviceRegistry :=
  testSetDeviceProperty
    ((DeviceRegistry.mk []).addDevice kDefaultCellularDevicePath .cellular
        "cellular1"
      |>.addDevice kDefaultWifiDevicePath .wifi "wifi1")
    kDefaultWifiDevicePath kIPConfigsProperty (Value.strList ["ip_config1"])

/-- The cellular device as registered by the test SetUp. -/
def testCellularDevice : Device :=
  ⟨.cellular, ⟨[(kTypeProperty, Value.str (typeString .cellular)),
               (kNameProperty, Value.str "cellular1")]⟩⟩

/-! Basic lemmas about the association-list operations. -/

theorem Value.sameType_refl (v : Value) : v.sameType v = true := by
  cases v <;> rfl

theorem Cont.fire_isContinuation (c : Cont) : c.fire.isContinuation = true := by
  cases c <;> rfl

theorem lookupDev_updateDev_self (l : List (String × Device)) (path : String)
    (d dev : Device) (h : lookupDev l path = some d) :
    lookupDev (updateDev l path dev) path = some dev := by
  induction l with
  | nil => simp [lookupDev] at h
  | cons hd tl ih =>
    obtain ⟨p, d0⟩ := hd
    by_cases hp : p = path
    · simp [lookupDev, updateDev, hp]
    · simp [lookupDev, updateDev, hp] at h ⊢
      exact ih h

theorem lookupProp_set (ps : PropertyStore) (name : String) (v : Value)
    (ps' : PropertyStore) (h : ps.set name v = some ps') :
    lookupProp ps'.entries name = some v := by
  unfold PropertyStore.set at h
  split at h
  · split at h
    · cases h
      simp [lookupProp]
    · cases h
  · cases h
    simp [lookupProp]

theorem set_of_get (ps : PropertyStore) (name : String) (v : Value)
    (h : lookupProp ps.entries name = some v) :
    ps.set name v = some ⟨(name, v) :: removeProp ps.entries name⟩ := by
  simp [PropertyStore.set, h, Value.sameType_refl]

/-! Claim theorems. -/

/-- Claim C1: for every device path not registered in the registry and every
facade operation, the call delivers the error continuation with kind
`DeviceNotFound` (and the detail naming the path), and no bus request is
ever issued for that call. -/
theorem unregistered_path_device_not_found_no_bus (reg : DeviceRegistry)
    (u : String) (op : Op) (h : DeviceRegistry.lookup reg u = none) :
    busRequests (runOp reg u op).2 = [] ∧
    continuations (runOp reg u op).2 =
      [Event.onError .deviceNotFound kErrorFailure ("Device not found: " ++ u)] := by
  rw [DeviceRegistry.lookup] at h
  constructor <;>
    simp [runOp, call, h, busRequests, continuations, drainLoop, Cont.fire,
      Event.isBusRequest, Event.isContinuation]

/-- Claim C1 witness: the test scenario — setting a property on the
unregistered path `"unknown_cellular_device"` of the test registry. -/
theorem unregistered_path_device_not_found_no_bus_witness :
    DeviceRegistry.lookup testRegistry kUnknownCellularDevicePath = none ∧
    (busRequests (runOp testRegistry kUnknownCellularDevicePath
        (Op.setDeviceProperty kCellularAllowRoamingProperty (Value.bool true))).2 = [] ∧
     continuations (runOp testRegistry kUnknownCellularDevicePath
        (Op.setDeviceProperty kCellularAllowRoamingProperty (Value.bool true))).2 =
       [Event.onError .deviceNotFound kErrorFailure
          ("Device not found: " ++ kUnknownCellularDevicePath)]) :=
  ⟨by decide,
   unregistered_path_device_not_found_no_bus testRegistry kUnknownCellularDevicePath
     (Op.setDeviceProperty kCellularAllowRoamingProperty (Value.bool true))
     (by decide)⟩

/-- Claim C2: for every facade call (any registry, path, operation), exactly
one continuation invocation occurs in the observable trace of that call —
never zero, never two. -/
theorem exactly_one_continuation_per_call (reg : DeviceRegistry)
    (path : String) (op : Op) :
    (continuations (runOp reg path op).2).length = 1 := by
  unfold runOp call
  cases h : lookupDev reg.devices path with
  | none =>
    simp [continuations, drainLoop, Cont.fire, Event.isContinuation]
  | some dev =>
    cases hb : (busProcess path dev op).2 <;>
      simp [continuations, drainLoop, hb, Cont.fire, Event.isContinuation]

/-- Claim C6: no continuation is invoked before the facade call returns
control to the caller — the events visible during the call itself contain
no continuation invocation (continuations are delivered only by the event
loop drain), including the `DeviceNotFound` error case. -/
theorem no_continuation_before_call_returns (reg : DeviceRegistry)
    (path : String) (op : Op) :
    continuations (call reg path op).2.1 = [] := by
  unfold call
  cases h : lookupDev reg.devices path with
  | none => simp [continuations]
  | some dev => simp [continuations, Event.isContinuation]

/-- Claim C10: for every facade operation invoked with an unregistered
device path, the error name delivered to the error continuation is the one
constant `NetworkDeviceHandler::kErrorFailure`, the same for
SetDeviceProperty, SetCarrier, RequirePin, EnterPin, UnblockPin and
ChangePin. -/
theorem uniform_error_name_on_unregistered_path (reg : DeviceRegistry)
    (u : String) (h : DeviceRegistry.lookup reg u = none)
    (name : String) (v : Value) (carrier pin puk oldPin newPin : String)
    (required : Bool) :
    ∀ op ∈ [Op.setDeviceProperty name v, Op.setCarrier carrier,
            Op.requirePin required pin, Op.enterPin pin,
            Op.unblockPin pin puk, Op.changePin oldPin newPin],
      errorNames (runOp reg u op).2 = [kErrorFailure] := by
  rw [DeviceRegistry.lookup] at h
  intro op _
  simp [runOp, call, h, errorNames, drainLoop, Cont.fire]

/-- Claim C10 witness: the test scenario — `RequirePin` on the unregistered
path of the test registry reports `kErrorFailure`. -/
theorem uniform_error_name_on_unregistered_path_witness :
    DeviceRegistry.lookup testRegistry kUnknownCellularDevicePath = none ∧
    errorNames (runOp testRegistry kUnknownCellularDevicePath
      (Op.requirePin true "1234")).2 = [kErrorFailure] :=
  ⟨by decide,
   uniform_error_name_on_unregistered_path testRegistry kUnknownCellularDevicePath
     (by decide) kCellularAllowRoamingProperty (Value.bool true) "carrier"
     "1234" "12345678" "4321" "1234" true
     (Op.requirePin true "1234") (by simp)⟩

/-- Claim C5: with the test registry (the wifi device `"stub_wifi_device"`
registered with `IPConfigs = ["ip_config1"]`), GetDeviceProperties invokes
the success continuation with a snapshot in which `IPConfigs` equals
`["ip_config1"]`. -/
theorem get_device_properties_reports_ip_configs :
    ∃ S, continuations (runOp testRegistry kDefaultWifiDevicePath
        Op.getDeviceProperties).2 =
        [Event.onSuccess (Payload.properties kDefaultWifiDevicePath S)] ∧
      lookupProp S kIPConfigsProperty = some (Value.strList ["ip_config1"]) :=
  ⟨[(kIPConfigsProperty, Value.strList ["ip_config1"]),
    (kTypeProperty, Value.str "wifi"), (kNameProperty, Value.str "wifi1")],
   by decide, by decide⟩

/-- Claim C9: for every device registered via the test interface AddDevice,
the snapshot delivered by GetDeviceProperties contains a `Type` property
whose string value is the type the device was registered with, although no
`Type` property was ever set through SetDeviceProperty. -/
theorem type_property_reported_from_registration (reg : DeviceRegistry)
    (path devName : String) (t : DeviceType) :
    ∃ S, continuations (runOp (reg.addDevice path t devName) path
        Op.getDeviceProperties).2 =
        [Event.onSuccess (Payload.properties path S)] ∧
      lookupProp S kTypeProperty = some (Value.str (typeString t)) := by
  refine ⟨[(kTypeProperty, Value.str (typeString t)),
           (kNameProperty, Value.str devName)], ?_, ?_⟩
  · simp [runOp, call, DeviceRegistry.addDevice, lookupDev, busProcess,
      PropertyStore.getAll, continuations, drainLoop, Cont.fire,
      Event.isContinuation]
  · simp [lookupProp]

/-- Claim C3: for a registered device, a property and a type-valid value
(one the store accepts), SetDeviceProperty succeeds and a subsequent
GetDeviceProperties succeeds with a snapshot in which the property has the
value just set. -/
theorem set_then_get_round_trip (reg : DeviceRegistry) (path name : String)
    (v : Value) (dev : Device) (ps : PropertyStore)
    (h1 : DeviceRegistry.lookup reg path = some dev)
    (h2 : dev.properties.set name v = some ps) :
    continuations (runOp reg path (Op.setDeviceProperty name v)).2 =
      [Event.onSuccess Payload.signal] ∧
    continuations (runOp (runOp reg path (Op.setDeviceProperty name v)).1 path
        Op.getDeviceProperties).2 =
      [Event.onSuccess (Payload.properties path ps.entries)] ∧
    lookupProp ps.entries name = some v := by
  rw [DeviceRegistry.lookup] at h1
  have hbus : busProcess path dev (Op.setDeviceProperty name v) =
      ({ dev with properties := ps }, Cont.success Payload.signal) := by
    simp [busProcess, h2]
  have h1' : lookupDev (updateDev reg.devices path { dev with properties := ps })
      path = some { dev with properties := ps } :=
    lookupDev_updateDev_self _ _ _ _ h1
  refine ⟨?_, ?_, lookupProp_set dev.properties name v ps h2⟩
  · simp [runOp, call, h1, hbus, continuations, drainLoop, Cont.fire,
      Event.isContinuation]
  · simp [runOp, call, h1, h2, h1', busProcess, PropertyStore.getAll,
      continuations, drainLoop, Cont.fire, Event.isContinuation]

/-- The cellular device store after the test sets `AllowRoaming` to true. -/
def testCellularRoamingStore : PropertyStore :=
  ⟨(kCellularAllowRoamingProperty, Value.bool true) ::
    testCellularDevice.properties.entries⟩

/-- Claim C3 witness: the test scenario — `AllowRoaming := true` on the
registered cellular device, then reading it back. -/
theorem set_then_get_round_trip_witness :
    DeviceRegistry.lookup testRegistry kDefaultCellularDevicePath =
      some testCellularDevice ∧
    testCellularDevice.properties.set kCellularAllowRoamingProperty
      (Value.bool true) = some testCellularRoamingStore ∧
    (continuations (runOp testRegistry kDefaultCellularDevicePath
        (Op.setDeviceProperty kCellularAllowRoamingProperty (Value.bool true))).2 =
      [Event.onSuccess Payload.signal] ∧
     continuations (runOp (runOp testRegistry kDefaultCellularDevicePath
        (Op.setDeviceProperty kCellularAllowRoamingProperty (Value.bool true))).1
        kDefaultCellularDevicePath Op.getDeviceProperties).2 =
      [Event.onSuccess (Payload.properties kDefaultCellularDevicePath
        testCellularRoamingStore.entries)] ∧
     lookupProp testCellularRoamingStore.entries kCellularAllowRoamingProperty =
      some (Value.bool true)) :=
  ⟨by decide, by decide,
   set_then_get_round_trip testRegistry kDefaultCellularDevicePath
     kCellularAllowRoamingProperty (Value.bool true) testCellularDevice
     testCellularRoamingStore (by decide) (by decide)⟩

/-- Claim C4: for each of RequirePin, EnterPin, UnblockPin, ChangePin and
SetCarrier: invoked on a registered device path the success continuation is
delivered, and invoked on an unregistered path the error continuation is
delivered with `DeviceNotFound`. -/
theorem pin_and_carrier_ops_success_or_not_found (reg : DeviceRegistry)
    (known unknown : String) (dev : Device)
    (required : Bool) (pin puk oldPin newPin carrier : String)
    (hk : DeviceRegistry.lookup reg known = some dev)
    (hu : DeviceRegistry.lookup reg unknown = none) :
    ∀ op ∈ [Op.requirePin required pin, Op.enterPin pin, Op.unblockPin pin puk,
            Op.changePin oldPin newPin, Op.setCarrier carrier],
      continuations (runOp reg known op).2 = [Event.onSuccess Payload.signal] ∧
      continuations (runOp reg unknown op).2 =
        [Event.onError .deviceNotFound kErrorFailure
          ("Device not found: " ++ unknown)] := by
  rw [DeviceRegistry.lookup] at hk hu
  intro op hop
  simp only [List.mem_cons, List.not_mem_nil, or_false] at hop
  rcases hop with rfl | rfl | rfl | rfl | rfl <;>
    exact ⟨by simp [runOp, call, hk, busProcess, continuations, drainLoop,
             Cont.fire, Event.isContinuation],
           by simp [runOp, call, hu, continuations, drainLoop, Cont.fire,
             Event.isContinuation]⟩

/-- Claim C4 witness: the test scenario — `RequirePin(path, true, "1234")`
on the registered cellular path and on the unknown path. -/
theorem pin_and_carrier_ops_success_or_not_found_witness :
    DeviceRegistry.lookup testRegistry kDefaultCellularDevicePath =
      some testCellularDevice ∧
    DeviceRegistry.lookup testRegistry kUnknownCellularDevicePath = none ∧
    (continuations (runOp testRegistry kDefaultCellularDevicePath
        (Op.requirePin true "1234")).2 = [Event.onSuccess Payload.signal] ∧
     continuations (runOp testRegistry kUnknownCellularDevicePath
        (Op.requirePin true "1234")).2 =
       [Event.onError .deviceNotFound kErrorFailure
         ("Device not found: " ++ kUnknownCellularDevicePath)]) :=
  ⟨by decide, by decide,
   pin_and_carrier_ops_success_or_not_found testRegistry
     kDefaultCellularDevicePath kUnknownCellularDevicePath testCellularDevice
     true "1234" "12345678" "4321" "1234" "carrier" (by decide) (by decide)
     (Op.requirePin true "1234") (by simp)⟩

/-- Claim C8: for a registered device and a value the store accepts, issuing
the same SetDeviceProperty twice in sequence yields the success continuation
both times, and the final stored value of the property is the value set. -/
theorem repeated_set_device_property_idempotent (reg : DeviceRegistry)
    (path name : String) (v : Value) (dev : Device) (ps : PropertyStore)
    (h1 : DeviceRegistry.lookup reg path = some dev)
    (h2 : dev.properties.set name v = some ps) :
    continuations (runOp reg path (Op.setDeviceProperty name v)).2 =
      [Event.onSuccess Payload.signal] ∧
    continuations (runOp (runOp reg path (Op.setDeviceProperty name v)).1 path
        (Op.setDeviceProperty name v)).2 =
      [Event.onSuccess Payload.signal] ∧
    ∃ dev2, DeviceRegistry.lookup
        (runOp (runOp reg path (Op.setDeviceProperty name v)).1 path
          (Op.setDeviceProperty name v)).1 path = some dev2 ∧
      dev2.properties.get name = some v := by
  rw [DeviceRegistry.lookup] at h1
  have hv : lookupProp ps.entries name = some v :=
    lookupProp_set dev.properties name v ps h2
  have h2' : ps.set name v = some ⟨(name, v) :: removeProp ps.entries name⟩ :=
    set_of_get ps name v hv
  have h1' : lookupDev (updateDev reg.devices path { dev with properties := ps })
      path = some { dev with properties := ps } :=
    lookupDev_updateDev_self _ _ _ _ h1
  have h1'' : lookupDev (updateDev
        (updateDev reg.devices path { dev with properties := ps }) path
        { dev with properties := ⟨(name, v) :: removeProp ps.entries name⟩ })
      path =
      some { dev with properties := ⟨(name, v) :: removeProp ps.entries name⟩ } :=
    lookupDev_updateDev_self _ _ _ _ h1'
  refine ⟨?_, ?_,
    ⟨{ dev with properties := ⟨(name, v) :: removeProp ps.entries name⟩ },
     ?_, ?_⟩⟩
  · simp [runOp, call, h1, h2, busProcess, continuations, drainLoop, Cont.fire,
      Event.isContinuation]
  · simp [runOp, call, h1, h2, h1', h2', busProcess, continuations, drainLoop,
      Cont.fire, Event.isContinuation]
  · simp [runOp, call, DeviceRegistry.lookup, h1, h2, h1', h2', h1'', busProcess]
  · simp [PropertyStore.get, lookupProp]

/-- Claim C8 witness: the test scenario — setting `AllowRoaming := true`
twice on the registered cellular device. -/
theorem repeated_set_device_property_idempotent_witness :
    DeviceRegistry.lookup testRegistry kDefaultCellularDevicePath =
      some testCellularDevice ∧
    testCellularDevice.properties.set kCellularAllowRoamingProperty
      (Value.bool true) = some testCellularRoamingStore ∧
    (continuations (runOp testRegistry kDefaultCellularDevicePath
        (Op.setDeviceProperty kCellularAllowRoamingProperty (Value.bool true))).2 =
      [Event.onSuccess Payload.signal] ∧
     continuations (runOp (runOp testRegistry kDefaultCellularDevicePath
        (Op.setDeviceProperty kCellularAllowRoamingProperty (Value.bool true))).1
        kDefaultCellularDevicePath
        (Op.setDeviceProperty kCellularAllowRoamingProperty (Value.bool true))).2 =
      [Event.onSuccess Payload.signal] ∧
     ∃ dev2, DeviceRegistry.lookup
        (runOp (runOp testRegistry kDefaultCellularDevicePath
          (Op.setDeviceProperty kCellularAllowRoamingProperty (Value.bool true))).1
          kDefaultCellularDevicePath
          (Op.setDeviceProperty kCellularAllowRoamingProperty (Value.bool true))).1
        kDefaultCellularDevicePath = some dev2 ∧
      dev2.properties.get kCellularAllowRoamingProperty = some (Value.bool true)) :=
  ⟨by decide, by decide,
   repeated_set_device_property_idempotent testRegistry
     kDefaultCellularDevicePath kCellularAllowRoamingProperty (Value.bool true)
     testCellularDevice testCellularRoamingStore (by decide) (by decide)⟩

/-- The snapshot carried by the first delivered success payload, if any. -/
def deliveredSnapshot (evs : List Event) : List (String × Value) :=
  match evs.filterMap (fun e =>
    match e with
    | Event.onSuccess (Payload.properties _ s) => some s
    | _ => none) with
  | s :: _ => s
  | [] => []

/-- The caller interaction of claim C7: run GetDeviceProperties, apply an
arbitrary mutation `m` to the delivered snapshot (value semantics model the
deep copy), then run GetDeviceProperties again. Returns the mutated copy
and the outcome of the second call. -/
def getThenMutateThenGet (reg : DeviceRegistry) (path : String)
    (m : List (String × Value) → List (String × Value)) :
    List (String × Value) × DeviceRegistry × List Event :=
  let r1 := runOp reg path Op.getDeviceProperties
  (m (deliveredSnapshot r1.2), runOp r1.1 path Op.getDeviceProperties)

/-- Claim C7: the mapping delivered to GetDeviceProperties is a snapshot
copy of the store at delivery time, and whatever mutation the caller applies
to its copy, the outcome of a later GetDeviceProperties is unchanged by it. -/
theorem snapshot_is_copy_mutation_has_no_effect (reg : DeviceRegistry)
    (path : String) (dev : Device)
    (h : DeviceRegistry.lookup reg path = some dev)
    (m m' : List (String × Value) → List (String × Value)) :
    deliveredSnapshot (runOp reg path Op.getDeviceProperties).2 =
      dev.properties.entries ∧
    (getThenMutateThenGet reg path m).2 = (getThenMutateThenGet reg path m').2 := by
  constructor
  · rw [DeviceRegistry.lookup] at h
    simp [runOp, call, h, busProcess, PropertyStore.getAll, deliveredSnapshot,
      drainLoop, Cont.fire]
  · rfl

/-- Claim C7 witness: on the test registry, a caller that erases its copy of
the cellular snapshot observes the same second-read outcome as one that
leaves the copy alone. -/
theorem snapshot_is_copy_mutation_has_no_effect_witness :
    DeviceRegistry.lookup testRegistry kDefaultCellularDevicePath =
      some testCellularDevice ∧
    (deliveredSnapshot (runOp testRegistry kDefaultCellularDevicePath
        Op.getDeviceProperties).2 = testCellularDevice.properties.entries ∧
     (getThenMutateThenGet testRegistry kDefaultCellularDevicePath
        (fun _ => [])).2 =
      (getThenMutateThenGet testRegistry kDefaultCellularDevicePath id).2) :=
  ⟨by decide,
   snapshot_is_copy_mutation_has_no_effect testRegistry
     kDefaultCellularDevicePath testCellularDevice (by decide)
     (fun _ => []) id⟩

end DeviceHandler
